import Mathlib

/-
Verification of the frameio OAuth/PKCE core against its specification.

Python strings are modelled as lists of characters (`Str`), dictionaries of
JSON token data as structures with optional fields, and every interaction
with the outside world (clock reads, random bytes, the filesystem handshake,
the child process) as explicit parameters of the embedded functions.
-/

abbrev Str := List Char

/-- Split a character list at every occurrence of `sep`
(mirrors Python `str.split(sep)` for a one-character separator). -/
def splitOnChar (sep : Char) : Str → List Str
  | [] => [[]]
  | c :: cs =>
    let r := splitOnChar sep cs
    if c == sep then [] :: r
    else
      match r with
      | [] => [[c]]
      | h :: t => (c :: h) :: t

/-- Everything after the first occurrence of `sep`, or `none` if absent. -/
def afterChar (sep : Char) : Str → Option Str
  | [] => none
  | c :: cs => if c == sep then some cs else afterChar sep cs

/-- Everything before the first occurrence of `sep` (the whole list if absent). -/
def beforeChar (sep : Char) : Str → Str
  | [] => []
  | c :: cs => if c == sep then [] else c :: beforeChar sep cs

/-- Does `pat` occur at the head of the list? -/
def startsWithL : Str → Str → Bool
  | [], _ => true
  | _ :: _, [] => false
  | p :: ps, c :: cs => p == c && startsWithL ps cs

/-- Does `pat` occur anywhere in the list (Python `pat in s`)? -/
def containsSub (pat : Str) : Str → Bool
  | [] => startsWithL pat []
  | c :: cs => startsWithL pat (c :: cs) || containsSub pat cs

/- ## PKCE (src/pkce.py) -/

/-- The URL-safe base64 alphabet used by `base64.urlsafe_b64encode`. -/
def b64urlAlphabet : Str :=
  "ABCDEFGHIJKLMNOPQRSTUVWXYZabcdefghijklmnopqrstuvwxyz0123456789-_".toList

/-- Character for a 6-bit group. -/
def b64Char (n : Nat) : Char := b64urlAlphabet.getD n 'A'

/-- URL-safe base64 encoding with `=` padding, three input bytes at a time
(embeds `base64.urlsafe_b64encode`). -/
def b64EncodeAux : List Nat → Str
  | b0 :: b1 :: b2 :: rest =>
    b64Char (b0 / 4) :: b64Char (b0 % 4 * 16 + b1 / 16) ::
      b64Char (b1 % 16 * 4 + b2 / 64) :: b64Char (b2 % 64) :: b64EncodeAux rest
  | [b0, b1] => [b64Char (b0 / 4), b64Char (b0 % 4 * 16 + b1 / 16), b64Char (b1 % 16 * 4), '=']
  | [b0] => [b64Char (b0 / 4), b64Char (b0 % 4 * 16), '=', '=']
  | [] => []

/-- Strip every trailing `=` (embeds Python `.rstrip('=')`). -/
def rstripEq (l : Str) : Str := (l.reverse.dropWhile (· == '=')).reverse

/-- URL-safe base64 without padding, written directly from the
specification's words ("URL-safe base64 encoding, without padding"):
the spec-side counterpart of encode-then-strip. -/
def base64urlNoPad : List Nat → Str
  | b0 :: b1 :: b2 :: rest =>
    b64Char (b0 / 4) :: b64Char (b0 % 4 * 16 + b1 / 16) ::
      b64Char (b1 % 16 * 4 + b2 / 64) :: b64Char (b2 % 64) :: base64urlNoPad rest
  | [b0, b1] => [b64Char (b0 / 4), b64Char (b0 % 4 * 16 + b1 / 16), b64Char (b1 % 16 * 4)]
  | [b0] => [b64Char (b0 / 4), b64Char (b0 % 4 * 16)]
  | [] => []

/-- The padding characters `b64EncodeAux` appends after the unpadded body. -/
def padOf : List Nat → Str
  | _ :: _ :: _ :: rest => padOf rest
  | [_, _] => ['=']
  | [_] => ['=', '=']
  | [] => []

/-- UTF-8 bytes of one character (embeds `str.encode('utf-8')`, per char). -/
def utf8EncodeChar (c : Char) : List Nat :=
  let n := c.toNat
  if n < 128 then [n]
  else if n < 2048 then [192 + n / 64, 128 + n % 64]
  else if n < 65536 then [224 + n / 4096, 128 + n / 64 % 64, 128 + n % 64]
  else [240 + n / 262144, 128 + n / 4096 % 64, 128 + n / 64 % 64, 128 + n % 64]

/-- UTF-8 bytes of a string. -/
def utf8Encode (s : Str) : List Nat := (s.map utf8EncodeChar).flatten

/-- Embeds `generate_code_verifier` from src/pkce.py: the random draw
`secrets.token_bytes(length)` is passed in as `randomBytes` (so the `length`
argument of the Python function is `randomBytes.length`); then URL-safe
base64, strip padding, truncate to 128 characters. -/
def generate_code_verifier (randomBytes : List Nat) : Str :=
  (rstripEq (b64EncodeAux randomBytes)).take 128

/-- Embeds `generate_code_challenge` from src/pkce.py: `hashlib.sha256` is an
external library primitive, passed in as the function `sha256`; the code
base64url-encodes the digest of the verifier's UTF-8 bytes and strips padding. -/
def generate_code_challenge (sha256 : List Nat → List Nat) (verifier : Str) : Str :=
  rstripEq (b64EncodeAux (sha256 (utf8Encode verifier)))

/- ## Redirect URL parsing

Embeds the `urlparse(...).query` / `parse_qs(...)` combination used in both
src/auth.py and src/electron_auth.py. `urlparse` yields the part of the URL
after the first `?` (with any fragment after the first `#` removed);
`parse_qs` splits on `&`, splits each pair at its first `=`, and drops pairs
with no `=` or an empty value (default `keep_blank_values=False`); the code
always reads `params[k][0]`, the value of the first occurrence of the key.
Percent-decoding is omitted: every parameter in scope here is URL-safe. -/

/-- Query string of a URL: after the first `?`, fragment removed. -/
def queryOf (url : Str) : Str :=
  match afterChar '?' (beforeChar '#' url) with
  | none => []
  | some q => q

/-- One `k=v` pair, `none` when there is no `=` or the value is blank. -/
def parsePair (kv : Str) : Option (Str × Str) :=
  match afterChar '=' kv with
  | none => none
  | some v => if v.isEmpty then none else some (beforeChar '=' kv, v)

/-- All parameters of a query string, in order. -/
def parseQS (q : Str) : List (Str × Str) :=
  (splitOnChar '&' q).filterMap parsePair

/-- First value for a key (the `params[k][0]` / `params.get(k, [None])[0]`
access pattern), `none` when the key is absent. -/
def getParam (ps : List (Str × Str)) (k : Str) : Option Str :=
  (ps.find? (fun p => p.1 == k)).map (·.2)

/- ## Token store (src/auth.py: save_tokens, get_valid_token)

A token record is the JSON object the provider returns; fields the code
touches are modelled as optional fields (absent field = `none`). Clock reads
(`time.time()`) and the outcome of the HTTP refresh call are passed in
explicitly. -/

structure TokenRecord where
  access_token : Option Str := none
  refresh_token : Option Str := none
  token_type : Option Str := none
  expires_in : Option Int := none
  expires_at : Option Int := none
  saved_at : Option Int := none
deriving DecidableEq, Repr

/-- Embeds `save_tokens` (src/auth.py lines 151–160). The code calls
`int(time.time())` twice — once for `saved_at` (line 154) and once inside the
`expires_at` computation (line 156) — so the two reads are separate
parameters. Returns the record as written to disk. -/
def save_tokens (now1 now2 : Int) (t : TokenRecord) : TokenRecord :=
  let t1 := { t with saved_at := some now1 }
  match t.expires_in with
  | some e => { t1 with expires_at := some (now2 + e) }
  | none => t1

/-- Outcome of the `refresh_access_token` HTTP call: the parsed 200 body,
or the exception message on a non-200 response or transport failure. -/
inductive RefreshOutcome where
  | success (t : TokenRecord)
  | failure (msg : Str)
deriving DecidableEq, Repr

/-- Observable result of `get_valid_token`: the returned token, whether the
refresh branch was entered, and the record handed to `save_tokens` (stamped),
if any. -/
structure GetTokenResult where
  token : Option Str
  refreshAttempted : Bool
  persisted : Option TokenRecord
deriving DecidableEq, Repr

/-- Embeds `get_valid_token` (src/auth.py lines 182–215). `now` is the
`time.time()` read at the expiry check; `n1`, `n2` are the two reads inside
the nested `save_tokens` call; `tokens` is what `load_tokens` returned;
`refreshResult` is the outcome of the `refresh_access_token` call (consulted
only if the code reaches it). -/
def get_valid_token (now n1 n2 : Int) (tokens : Option TokenRecord)
    (refreshResult : RefreshOutcome) : GetTokenResult :=
  match tokens with
  | none => ⟨none, false, none⟩
  | some t =>
    if now > t.expires_at.getD 0 - 300 then
      match t.refresh_token with
      | some rt =>
        match refreshResult with
        | .success nt =>
          let nt2 := if nt.refresh_token = none then { nt with refresh_token := some rt } else nt
          ⟨nt2.access_token, true, some (save_tokens n1 n2 nt2)⟩
        | .failure _ => ⟨none, true, none⟩
      | none => ⟨none, false, none⟩
    else ⟨t.access_token, false, none⟩

/- ## Redirect capture (src/electron_auth.py)

`capture_oauth_redirect` is a coordination loop around one child process and
two handshake files. Every external observation it makes — platform, presence
of the packaged app, success of directory/file operations, the launch, the
1-second startup check, and each 0.5-second polling tick — is a field of
`CaptureEnv`, and the function returns both its result triple and the state
of the handshake files and the child process at the moment it returns. -/

inductive OSystem where
  | darwin
  | linux
  | windows
  | other
deriving DecidableEq, Repr

/-- One observation of the polling loop (one 0.5 s tick): the content of the
result file if it exists at this tick (as read and stripped), and the child's
(stdout, stderr) if `process.poll()` reports that it has exited. -/
structure PollTick where
  resultContent : Option Str
  exitOutput : Option (Str × Str)
deriving DecidableEq, Repr

/-- Outcome of the `subprocess.Popen` call. -/
inductive LaunchResult where
  | ok
  | fileNotFound
  | otherExc (msg : Str)
deriving DecidableEq, Repr

/-- Final state of the child process when `capture_oauth_redirect` returns. -/
inductive ProcFinal where
  | notLaunched
  | exited
  | terminated
  | killed
deriving DecidableEq, Repr

/-- The world one run of `capture_oauth_redirect` interacts with. `ticks`
lists the observations of successive loop iterations; exhausting the list
means the caller-supplied timeout elapsed. `lateResult` is the content of a
result file that appears only after cancellation has begun (after the loop
ended); the cleanup still unlinks it. On `argsWriteOk = false` the args file
is modelled as not (re)written. -/
structure CaptureEnv where
  system : OSystem
  appInstalled : Bool
  helperDirExists : Bool
  packageJsonExists : Bool
  mkdirOk : Bool
  argsWriteOk : Bool
  staleArgs : Bool
  staleResult : Bool
  launch : LaunchResult
  immediateExit : Option (Str × Str)
  ticks : List PollTick
  terminateCompletes : Bool
  lateResult : Option Str
deriving DecidableEq, Repr

/-- A tagged error dictionary (`{"error": ..., "error_description": ...}`). -/
structure ErrInfo where
  error : Str
  error_description : Str
deriving DecidableEq, Repr

/-- The `(code, state, error)` triple the capture operation returns. -/
structure CaptureOutcome where
  code : Option Str
  state : Option Str
  err : Option ErrInfo
deriving DecidableEq, Repr

/-- Result triple plus the observable state at return time. -/
structure CaptureFinal where
  outcome : CaptureOutcome
  argsExists : Bool
  resultExists : Bool
  launched : Bool
  proc : ProcFinal
deriving DecidableEq, Repr

/-- Name of the packaged app location per platform (src/electron_auth.py
`PACKAGED_APPS`, architecture variants collapsed into `appInstalled`). -/
def appDirName : OSystem → Str
  | .darwin => "FrameioOAuth.app".toList
  | .linux => "FrameioOAuth-linux-x64".toList
  | .windows => "FrameioOAuth-win32-x64".toList
  | .other => []

/-- Embeds `find_packaged_app` (lines 108–133): some path when the platform
is supported and its packaged app exists, otherwise `None`. -/
def find_packaged_app (env : CaptureEnv) : Option Str :=
  match env.system with
  | .other => none
  | s => if env.appInstalled then some (appDirName s) else none

/-- The platform-specific packaging command named in the readiness message. -/
def packageCmd : OSystem → Str
  | .darwin => "npm run package".toList
  | .linux => "npm run package:linux".toList
  | .windows => "npm run package:win".toList
  | .other => "npm run package".toList

/-- Embeds `check_electron_ready` (lines 136–169): `(is_ready, message)`. -/
def check_electron_ready (env : CaptureEnv) : Bool × Str :=
  match find_packaged_app env with
  | some name => (true, "Ready: ".toList ++ name)
  | none =>
    if !env.helperDirExists then
      (false, "electron-helper directory not found".toList)
    else if !env.packageJsonExists then
      (false, "package.json not found in electron-helper/".toList)
    else
      (false, "Electron app not packaged. Run:\n  cd electron-helper && npm install && ".toList
        ++ packageCmd env.system)

/-- Embeds the polling loop (lines 322–365). Carries the current
`captured_url`; returns it together with whether the child exited during the
loop. Each tick: read the result file if present (a content containing
`code=` breaks the loop); then, if the process has exited, scan its stdout
for the first `CAPTURED_URL:` line and break either way. -/
def pollLoop : List PollTick → Option Str → Option Str × Bool
  | [], cap => (cap, false)
  | t :: rest, cap =>
    let cap1 := match t.resultContent with
      | some c => some c
      | none => cap
    let hasCode := match t.resultContent with
      | some c => containsSub "code=".toList c
      | none => false
    if hasCode then (cap1, false)
    else
      match t.exitOutput with
      | some (out, _) =>
        let fromStdout := ((splitOnChar '\n' out).filter
          (fun l => startsWithL "CAPTURED_URL:".toList l)).head?
        match fromStdout with
        | some l => (some (l.drop "CAPTURED_URL:".toList.length), true)
        | none => (cap1, true)
      | none => pollLoop rest cap1

/-- Embeds lines 411–432: parse the captured URL's query string into the
result triple. An `error` parameter wins; then a missing `code` parameter is
`no_code`; otherwise the code and the (possibly absent) state. -/
def parseCapturedUrl (captured : Str) : CaptureOutcome :=
  let params := parseQS (queryOf captured)
  match getParam params "error".toList with
  | some e =>
    ⟨none, none, some ⟨e, (getParam params "error_description".toList).getD
      "Unknown error".toList⟩⟩
  | none =>
    match getParam params "code".toList with
    | none =>
      ⟨none, none, some ⟨"no_code".toList, "No authorization code in redirect URL".toList⟩⟩
    | some c => ⟨some c, getParam params "state".toList, none⟩

/-- Embeds `capture_oauth_redirect` (src/electron_auth.py lines 172–443).
Interpolated path/exception details in a few descriptions are elided. -/
def capture_oauth_redirect (env : CaptureEnv) : CaptureFinal :=
  let ready := check_electron_ready env
  if !ready.1 then
    ⟨⟨none, none, some ⟨"electron_not_ready".toList, ready.2⟩⟩,
      env.staleArgs, env.staleResult, false, .notLaunched⟩
  else if !env.mkdirOk then
    ⟨⟨none, none, some ⟨"dir_creation_failed".toList,
        "Failed to create data directory".toList⟩⟩,
      env.staleArgs, env.staleResult, false, .notLaunched⟩
  else if !env.argsWriteOk then
    ⟨⟨none, none, some ⟨"config_write_failed".toList,
        "Failed to write config file".toList⟩⟩,
      env.staleArgs, env.staleResult, false, .notLaunched⟩
  else
    match find_packaged_app env with
    | none =>
      ⟨⟨none, none, some ⟨"app_not_found".toList,
          "Could not find packaged Electron app".toList⟩⟩,
        true, false, false, .notLaunched⟩
    | some _ =>
      match env.system with
      | .other =>
        ⟨⟨none, none, some ⟨"unsupported_platform".toList,
            "Platform is not yet supported".toList⟩⟩,
          true, false, false, .notLaunched⟩
      | _ =>
        match env.launch with
        | .fileNotFound =>
          ⟨⟨none, none, some ⟨"executable_not_found".toList,
              "Could not find executable".toList⟩⟩,
            true, false, true, .notLaunched⟩
        | .otherExc msg =>
          ⟨⟨none, none, some ⟨"unexpected_error".toList, msg⟩⟩,
            true, false, true, .notLaunched⟩
        | .ok =>
          match env.immediateExit with
          | some x =>
            let m := if x.2.isEmpty then x.1 else x.2
            ⟨⟨none, none, some ⟨"electron_crashed".toList,
                "Electron exited immediately: ".toList ++ m⟩⟩,
              true, false, true, .exited⟩
          | none =>
            let r := pollLoop env.ticks none
            let procAfter : ProcFinal :=
              if r.2 then .exited
              else if env.terminateCompletes then .terminated
              else .killed
            match r.1 with
            | none =>
              ⟨⟨none, none, some ⟨"no_redirect".toList,
                  "Did not receive redirect within timeout".toList⟩⟩,
                false, false, true, procAfter⟩
            | some url =>
              ⟨parseCapturedUrl url, false, false, true, procAfter⟩

/- ## Orchestrator (src/auth.py: authenticate, authenticate_headless)

Capture and the HTTP exchange are external effects, so the orchestrator's
post-capture validation is embedded as a decision function: its value says
whether the flow fails with a tagged error or proceeds to invoke
`exchange_code_for_tokens` with a given code. -/

/-- Either a tagged failure or the invocation of the token exchange. -/
inductive AuthStep where
  | failure (e : ErrInfo)
  | exchange (code : Str)
deriving DecidableEq, Repr

/-- The state-mismatch error dictionary both paths build. -/
def stateMismatchErr : ErrInfo :=
  ⟨"state_mismatch".toList,
    "State parameter mismatch - possible CSRF attack. Authentication aborted.".toList⟩

/-- Embeds the automatic path of `authenticate` after the capture call
(src/auth.py lines 402–424): propagate a capture error unchanged, then check
the returned state against the generated one, then require a code. -/
def authenticateDecision (genState : Str) (cap : CaptureOutcome) : AuthStep :=
  match cap.err with
  | some e => .failure e
  | none =>
    if cap.state ≠ some genState then .failure stateMismatchErr
    else
      match cap.code with
      | none => .failure ⟨"no_code".toList, "No authorization code received".toList⟩
      | some c =>
        if c.isEmpty then .failure ⟨"no_code".toList, "No authorization code received".toList⟩
        else .exchange c

/-- Embeds `authenticate_headless` from the pasted redirect URL to the
exchange decision (src/auth.py lines 290–334): empty input, then the error
parameter, then the code parameter, then the state comparison. -/
def authenticateHeadlessDecision (genState : Str) (redirectUrl : Str) : AuthStep :=
  if redirectUrl.isEmpty then
    .failure ⟨"no_input".toList, "No redirect URL provided".toList⟩
  else
    let params := parseQS (queryOf redirectUrl)
    match getParam params "error".toList with
    | some e =>
      .failure ⟨e, (getParam params "error_description".toList).getD
        "Authorization denied".toList⟩
    | none =>
      match getParam params "code".toList with
      | none =>
        .failure ⟨"no_code".toList,
          "No authorization code found in the URL. Make sure you copied the complete URL.".toList⟩
      | some c =>
        if getParam params "state".toList ≠ some genState then .failure stateMismatchErr
        else .exchange c

/-- Concrete world for the C2 counterexample: everything ready, but the
executable is missing inside the app directory, so `Popen` raises
`FileNotFoundError`. -/
def envCrash : CaptureEnv :=
  { system := .linux, appInstalled := true, helperDirExists := true,
    packageJsonExists := true, mkdirOk := true, argsWriteOk := true,
    staleArgs := false, staleResult := false, launch := .fileNotFound,
    immediateExit := none, ticks := [], terminateCompletes := true,
    lateResult := none }

/-- Concrete world for the C2 witness: a run that reaches the polling loop
and captures a redirect on its first tick. -/
def envPollOk : CaptureEnv :=
  { system := .linux, appInstalled := true, helperDirExists := true,
    packageJsonExists := true, mkdirOk := true, argsWriteOk := true,
    staleArgs := false, staleResult := false, launch := .ok,
    immediateExit := none,
    ticks := [⟨some "adobe://cb?code=abc&state=S1".toList, none⟩],
    terminateCompletes := true, lateResult := none }

/-- Concrete world for the C3 witness: no result ever appears, the child
never exits, and the timeout elapses after two ticks. -/
def envTimeout : CaptureEnv :=
  { system := .linux, appInstalled := true, helperDirExists := true,
    packageJsonExists := true, mkdirOk := true, argsWriteOk := true,
    staleArgs := false, staleResult := false, launch := .ok,
    immediateExit := none, ticks := [⟨none, none⟩, ⟨none, none⟩],
    terminateCompletes := true, lateResult := none }

/-- Concrete world for the C8 theorems: the capturer is not installed and the
helper directory is absent. -/
def envNotReady : CaptureEnv :=
  { system := .linux, appInstalled := false, helperDirExists := false,
    packageJsonExists := false, mkdirOk := true, argsWriteOk := true,
    staleArgs := false, staleResult := false, launch := .ok,
    immediateExit := none, ticks := [], terminateCompletes := true,
    lateResult := none }

/- ## Theorems -/

/-- No index of the base64 alphabet yields the padding character. -/
theorem b64Char_ne_pad (n : Nat) : b64Char n ≠ '=' := by
  rcases lt_or_ge n 64 with h | h
  · interval_cases n <;> decide
  · have hlen : b64urlAlphabet.length ≤ n := by
      have : b64urlAlphabet.length = 64 := by decide
      omega
    rw [b64Char, List.getD_eq_default _ _ hlen]
    decide

/-- Padded encoding splits into the unpadded body followed by the padding. -/
theorem b64_split : ∀ bs : List Nat, b64EncodeAux bs = base64urlNoPad bs ++ padOf bs
  | [] => rfl
  | [_] => rfl
  | [_, _] => rfl
  | _ :: _ :: _ :: rest => by
    simp [b64EncodeAux, base64urlNoPad, padOf, b64_split rest]

/-- Length of the unpadded base64 body: the ceiling of 4n/3. -/
theorem base64urlNoPad_length :
    ∀ bs : List Nat, (base64urlNoPad bs).length = (4 * bs.length + 2) / 3
  | [] => rfl
  | [_] => by simp [base64urlNoPad]
  | [_, _] => by simp [base64urlNoPad]
  | _ :: _ :: _ :: rest => by
    simp [base64urlNoPad, base64urlNoPad_length rest]
    omega

/-- The unpadded body never contains the padding character. -/
theorem base64urlNoPad_no_pad :
    ∀ bs : List Nat, ∀ c ∈ base64urlNoPad bs, c ≠ '='
  | [], c, hc => by simp [base64urlNoPad] at hc
  | [b0], c, hc => by
    simp [base64urlNoPad] at hc
    rcases hc with h | h <;> (subst h; exact b64Char_ne_pad _)
  | [b0, b1], c, hc => by
    simp [base64urlNoPad] at hc
    rcases hc with h | h | h <;> (subst h; exact b64Char_ne_pad _)
  | b0 :: b1 :: b2 :: rest, c, hc => by
    simp [base64urlNoPad] at hc
    rcases hc with h | h | h | h | h
    · subst h; exact b64Char_ne_pad _
    · subst h; exact b64Char_ne_pad _
    · subst h; exact b64Char_ne_pad _
    · subst h; exact b64Char_ne_pad _
    · exact base64urlNoPad_no_pad rest c h

/-- The padding part consists only of the padding character. -/
theorem padOf_all_pad : ∀ bs : List Nat, ∀ c ∈ padOf bs, c = '='
  | [], c, hc => by simp [padOf] at hc
  | [_], c, hc => by simpa [padOf] using hc
  | [_, _], c, hc => by simpa [padOf] using hc
  | _ :: _ :: _ :: rest, c, hc => padOf_all_pad rest c (by simpa [padOf] using hc)

theorem dropWhile_append_of_all (p : Char → Bool) (l₂ : Str) :
    ∀ l₁ : Str, (∀ c ∈ l₁, p c = true) → (l₁ ++ l₂).dropWhile p = l₂.dropWhile p
  | [], _ => by simp
  | c :: cs, h => by
    have hc : p c = true := h c (by simp)
    simp only [List.cons_append, List.dropWhile_cons, hc, if_true]
    exact dropWhile_append_of_all p l₂ cs fun d hd => h d (by simp [hd])

theorem dropWhile_eq_self_of_all_neg (p : Char → Bool) (l : Str)
    (h : ∀ c ∈ l, p c = false) : l.dropWhile p = l := by
  cases l with
  | nil => rfl
  | cons c cs =>
    have hc : p c = false := h c (by simp)
    simp [List.dropWhile, hc]

/-- Stripping trailing padding from body-plus-padding recovers the body. -/
theorem rstripEq_append (main pad : Str)
    (hm : ∀ c ∈ main, c ≠ '=') (hp : ∀ c ∈ pad, c = '=') :
    rstripEq (main ++ pad) = main := by
  unfold rstripEq
  rw [List.reverse_append]
  rw [dropWhile_append_of_all _ _ pad.reverse (by
    intro c hc
    have := hp c (List.mem_reverse.mp hc)
    simp [this])]
  rw [dropWhile_eq_self_of_all_neg _ _ (by
    intro c hc
    have := hm c (List.mem_reverse.mp hc)
    simp [this])]
  exact List.reverse_reverse _

/-- The Python verifier equals the spec-side unpadded encoding, truncated. -/
theorem generate_code_verifier_eq (bytes : List Nat) :
    generate_code_verifier bytes = (base64urlNoPad bytes).take 128 := by
  unfold generate_code_verifier
  rw [b64_split, rstripEq_append _ _ (base64urlNoPad_no_pad bytes) (padOf_all_pad bytes)]

/-- C4: for every verifier produced by the verifier generator, for any length
argument in its accepted range 43–128 (the draw of `secrets.token_bytes(length)`
is passed in as `randomBytes`, so `length = randomBytes.length`), the verifier's
length lies in [43, 128] and it contains no padding character; and for every
verifier string, the generated challenge equals the URL-safe base64 encoding,
without padding, of the SHA-256 digest of the verifier's UTF-8 bytes (and is
deterministic in the verifier, being a function of it). -/
theorem pkce_verifier_challenge_spec
    (randomBytes : List Nat) (h43 : 43 ≤ randomBytes.length) (h128 : randomBytes.length ≤ 128)
    (sha256 : List Nat → List Nat) (verifier : Str) :
    (43 ≤ (generate_code_verifier randomBytes).length ∧
      (generate_code_verifier randomBytes).length ≤ 128 ∧
      ∀ c ∈ generate_code_verifier randomBytes, c ≠ '=') ∧
    (generate_code_challenge sha256 verifier =
        base64urlNoPad (sha256 (utf8Encode verifier)) ∧
      ∀ c ∈ generate_code_challenge sha256 verifier, c ≠ '=') := by
  have hch : generate_code_challenge sha256 verifier =
      base64urlNoPad (sha256 (utf8Encode verifier)) := by
    unfold generate_code_challenge
    rw [b64_split, rstripEq_append _ _ (base64urlNoPad_no_pad _) (padOf_all_pad _)]
  refine ⟨⟨?_, ?_, ?_⟩, hch, ?_⟩
  · rw [generate_code_verifier_eq, List.length_take, base64urlNoPad_length]
    omega
  · rw [generate_code_verifier_eq, List.length_take]
    omega
  · intro c hc
    rw [generate_code_verifier_eq] at hc
    exact base64urlNoPad_no_pad _ c (List.mem_of_mem_take hc)
  · rw [hch]
    exact fun c hc => base64urlNoPad_no_pad _ c hc

/-- Witness for C4 at the default length 64 and a concrete digest function. -/
theorem pkce_verifier_challenge_spec_witness :
    43 ≤ (List.replicate 64 0).length ∧ (List.replicate 64 0).length ≤ 128 ∧
    ((43 ≤ (generate_code_verifier (List.replicate 64 0)).length ∧
        (generate_code_verifier (List.replicate 64 0)).length ≤ 128 ∧
        ∀ c ∈ generate_code_verifier (List.replicate 64 0), c ≠ '=') ∧
      (generate_code_challenge (fun _ => List.replicate 32 0) "test".toList =
          base64urlNoPad ((fun _ => List.replicate (32 : Nat) (0 : Nat)) (utf8Encode "test".toList)) ∧
        ∀ c ∈ generate_code_challenge (fun _ => List.replicate 32 0) "test".toList, c ≠ '=')) :=
  ⟨by decide, by decide,
    pkce_verifier_challenge_spec (List.replicate 64 0) (by decide) (by decide)
      (fun _ => List.replicate 32 0) "test".toList⟩

/-- Stamping `saved_at`/`expires_at` never touches the refresh token. -/
theorem save_tokens_refresh_token (n1 n2 : Int) (t : TokenRecord) :
    (save_tokens n1 n2 t).refresh_token = t.refresh_token := by
  cases h : t.expires_in <;> simp [save_tokens, h]

/-- C5 counterexample: `save_tokens` reads the clock twice (src/auth.py lines
154 and 156); if the clock advances by one second between the two reads, the
stored `expires_at` is `saved_at + expires_in + 1`, not `saved_at + expires_in`.
Here the first read returns 1000 and the second 1001, with `expires_in = 3600`. -/
theorem save_tokens_clock_skew_counterexample :
    (save_tokens 1000 1001 { expires_in := some 3600 }).saved_at = some 1000 ∧
    (save_tokens 1000 1001 { expires_in := some 3600 }).expires_at = some 4601 ∧
    (save_tokens 1000 1001 { expires_in := some 3600 }).expires_at ≠
      some ((1000 : Int) + 3600) := by
  refine ⟨rfl, rfl, ?_⟩
  decide

/-- C5 (amended): the save operation stamps `saved_at` with the first clock
read and stores `expires_at` equal to the second clock read plus `expires_in`;
whenever the two reads coincide (no clock tick between the adjacent
statements), `expires_at = saved_at + expires_in` exactly as claimed. -/
theorem save_tokens_expiry (now : Int) (t : TokenRecord) (e : Int)
    (he : t.expires_in = some e) :
    (save_tokens now now t).saved_at = some now ∧
    (save_tokens now now t).expires_at = some (now + e) := by
  simp [save_tokens, he]

/-- Witness for the amended C5 at `now = 500`, `expires_in = 3600`. -/
theorem save_tokens_expiry_witness :
    (({ expires_in := some 3600 } : TokenRecord).expires_in = some (3600 : Int)) ∧
    ((save_tokens 500 500 { expires_in := some 3600 }).saved_at = some 500 ∧
      (save_tokens 500 500 { expires_in := some 3600 }).expires_at = some ((500 : Int) + 3600)) :=
  ⟨rfl, save_tokens_expiry 500 { expires_in := some 3600 } 3600 rfl⟩

/-- C6: for a stored record holding a refresh token, an expiry 200 seconds in
the future is inside the 300-second buffer, so `get_valid_token` enters the
refresh branch; an expiry 400 seconds in the future is outside it, so no
refresh happens and the stored access token is returned as-is. -/
theorem get_valid_token_buffer (now n1 n2 : Int) (t : TokenRecord) (rt : Str)
    (hrt : t.refresh_token = some rt) (r : RefreshOutcome) :
    (t.expires_at = some (now + 200) →
      (get_valid_token now n1 n2 (some t) r).refreshAttempted = true) ∧
    (t.expires_at = some (now + 400) →
      (get_valid_token now n1 n2 (some t) r).refreshAttempted = false ∧
      (get_valid_token now n1 n2 (some t) r).token = t.access_token) := by
  constructor
  · intro hea
    have hc : now > t.expires_at.getD 0 - 300 := by
      rw [hea]
      simp
      omega
    cases r with
    | success nt => simp [get_valid_token, hrt, if_pos hc]
    | failure m => simp [get_valid_token, hrt, if_pos hc]
  · intro hea
    have hc : ¬ (now > t.expires_at.getD 0 - 300) := by
      rw [hea]
      simp
      omega
    constructor <;> simp [get_valid_token, if_neg hc]

/-- Witness for C6 with `now = 1000` and expiries 1200 and 1400. -/
theorem get_valid_token_buffer_witness :
    (({ access_token := some "AT".toList, refresh_token := some "RT".toList,
          expires_at := some 1200 } : TokenRecord).refresh_token = some "RT".toList) ∧
    (({ access_token := some "AT".toList, refresh_token := some "RT".toList,
          expires_at := some 1200 } : TokenRecord).expires_at = some ((1000 : Int) + 200)) ∧
    ((get_valid_token 1000 1000 1000
        (some { access_token := some "AT".toList, refresh_token := some "RT".toList,
                expires_at := some 1200 })
        (.failure "boom".toList)).refreshAttempted = true) ∧
    (({ access_token := some "AT".toList, refresh_token := some "RT".toList,
          expires_at := some 1400 } : TokenRecord).expires_at = some ((1000 : Int) + 400)) ∧
    ((get_valid_token 1000 1000 1000
        (some { access_token := some "AT".toList, refresh_token := some "RT".toList,
                expires_at := some 1400 })
        (.failure "boom".toList)).refreshAttempted = false ∧
      (get_valid_token 1000 1000 1000
        (some { access_token := some "AT".toList, refresh_token := some "RT".toList,
                expires_at := some 1400 })
        (.failure "boom".toList)).token = some "AT".toList) :=
  ⟨rfl, rfl,
    (get_valid_token_buffer 1000 1000 1000 _ "RT".toList rfl (.failure "boom".toList)).1 rfl,
    rfl,
    (get_valid_token_buffer 1000 1000 1000 _ "RT".toList rfl (.failure "boom".toList)).2 rfl⟩

/-- C7: when the refresh inside `get_valid_token` succeeds but the provider
response carries no `refresh_token`, the record persisted afterwards retains
the previous record's refresh token unchanged (and a refresh was attempted). -/
theorem get_valid_token_preserves_refresh_token
    (now n1 n2 : Int) (t nt : TokenRecord) (rt : Str)
    (hrt : t.refresh_token = some rt)
    (hexp : now > t.expires_at.getD 0 - 300)
    (hnt : nt.refresh_token = none) :
    (get_valid_token now n1 n2 (some t) (.success nt)).persisted.map
        TokenRecord.refresh_token = some (some rt) ∧
    (get_valid_token now n1 n2 (some t) (.success nt)).refreshAttempted = true := by
  simp [get_valid_token, hrt, if_pos hexp, hnt, save_tokens_refresh_token]

/-- Witness for C7: expired record with refresh token "RT", response without one. -/
theorem get_valid_token_preserves_refresh_token_witness :
    (({ refresh_token := some "RT".toList, expires_at := some 100 } : TokenRecord).refresh_token
        = some "RT".toList) ∧
    ((1000 : Int) > ({ refresh_token := some "RT".toList, expires_at := some 100 }
        : TokenRecord).expires_at.getD 0 - 300) ∧
    (({ access_token := some "AT2".toList, expires_in := some 3600 }
        : TokenRecord).refresh_token = none) ∧
    ((get_valid_token 1000 1000 1000
        (some { refresh_token := some "RT".toList, expires_at := some 100 })
        (.success { access_token := some "AT2".toList, expires_in := some 3600 })).persisted.map
          TokenRecord.refresh_token = some (some "RT".toList) ∧
      (get_valid_token 1000 1000 1000
        (some { refresh_token := some "RT".toList, expires_at := some 100 })
        (.success { access_token := some "AT2".toList, expires_in := some 3600 })).refreshAttempted
          = true) :=
  ⟨rfl, by decide, rfl,
    get_valid_token_preserves_refresh_token 1000 1000 1000 _ _ "RT".toList rfl (by decide) rfl⟩

/-- C10: a stored record lacking `expires_at` is treated as already expired
(the missing field defaults to 0, and the clock is nonnegative): the stored
access token is never returned directly — with a refresh token present the
refresh branch is entered, and without one no token is returned. -/
theorem get_valid_token_missing_expires_at (now n1 n2 : Int) (t : TokenRecord)
    (hnone : t.expires_at = none) (hnow : 0 ≤ now) (r : RefreshOutcome) :
    (t.refresh_token = none →
      get_valid_token now n1 n2 (some t) r = ⟨none, false, none⟩) ∧
    (∀ rt, t.refresh_token = some rt →
      (get_valid_token now n1 n2 (some t) r).refreshAttempted = true) := by
  have hc : now > t.expires_at.getD 0 - 300 := by
    rw [hnone]
    simp
    omega
  constructor
  · intro hrt
    simp [get_valid_token, if_pos hc, hrt]
  · intro rt hrt
    cases r with
    | success nt => simp [get_valid_token, hrt, if_pos hc]
    | failure m => simp [get_valid_token, hrt, if_pos hc]

/-- Witness for C10: a record with only an access token and no expiry. -/
theorem get_valid_token_missing_expires_at_witness :
    (({ access_token := some "AT".toList } : TokenRecord).expires_at = none) ∧
    ((0 : Int) ≤ 1000) ∧
    (({ access_token := some "AT".toList } : TokenRecord).refresh_token = none) ∧
    (get_valid_token 1000 1000 1000 (some { access_token := some "AT".toList })
        (.failure "x".toList) = ⟨none, false, none⟩) :=
  ⟨rfl, by decide, rfl,
    (get_valid_token_missing_expires_at 1000 1000 1000 _ rfl (by decide)
        (.failure "x".toList)).1 rfl⟩

/-- A loop trace with no result file and no process exit leaves the captured
URL unchanged and reports the process still running. -/
theorem pollLoop_all_none :
    ∀ (ticks : List PollTick),
      (∀ t ∈ ticks, t.resultContent = none ∧ t.exitOutput = none) →
      ∀ cap, pollLoop ticks cap = (cap, false)
  | [], _, cap => rfl
  | t :: rest, h, cap => by
    have h1 := h t (by simp)
    simp only [pollLoop, h1.1, h1.2]
    exact pollLoop_all_none rest (fun u hu => h u (by simp [hu])) cap

/-- Readiness implies the packaged app was found. -/
theorem ready_find (env : CaptureEnv) (h : (check_electron_ready env).1 = true) :
    ∃ n, find_packaged_app env = some n := by
  unfold check_electron_ready at h
  cases hf : find_packaged_app env with
  | some n => exact ⟨n, rfl⟩
  | none =>
    rw [hf] at h
    by_cases h1 : env.helperDirExists <;> by_cases h2 : env.packageJsonExists <;>
      simp [h1, h2] at h

/-- A packaged app is only found on a supported platform. -/
theorem find_some_system (env : CaptureEnv) (n : Str)
    (h : find_packaged_app env = some n) : env.system ≠ .other := by
  intro ho
  rw [find_packaged_app, ho] at h
  exact Option.noConfusion h

/-- C3: if no result file ever appears and the child process never exits
before the timeout elapses (every polling tick observes neither), the
coordinator returns the `no_redirect` failure, terminates the process —
force-killing it when the grace-period wait does not complete — cleans both
handshake files, and honors no captured result that arrives after
cancellation has begun: the whole observable result is unchanged for every
late-arriving result file content `r`. -/
theorem capture_timeout_no_redirect (env : CaptureEnv)
    (hready : (check_electron_ready env).1 = true)
    (hmk : env.mkdirOk = true) (hw : env.argsWriteOk = true)
    (hl : env.launch = .ok) (hie : env.immediateExit = none)
    (hticks : ∀ t ∈ env.ticks, t.resultContent = none ∧ t.exitOutput = none) :
    (capture_oauth_redirect env).outcome =
      ⟨none, none, some ⟨"no_redirect".toList,
        "Did not receive redirect within timeout".toList⟩⟩ ∧
    (capture_oauth_redirect env).proc =
      (if env.terminateCompletes then ProcFinal.terminated else ProcFinal.killed) ∧
    (capture_oauth_redirect env).argsExists = false ∧
    (capture_oauth_redirect env).resultExists = false ∧
    (∀ r : Str, capture_oauth_redirect { env with lateResult := some r } =
      capture_oauth_redirect env) := by
  obtain ⟨n, hf⟩ := ready_find env hready
  have hsys := find_some_system env n hf
  have hpl : pollLoop env.ticks none = (none, false) :=
    pollLoop_all_none env.ticks hticks none
  refine ⟨?_, ?_, ?_, ?_, fun r => rfl⟩ <;>
    (cases hsysc : env.system <;>
      first
        | exact absurd hsysc hsys
        | simp [capture_oauth_redirect, hready, hmk, hw, hf, hsysc, hl, hie, hpl])

/-- Witness for C3: the timeout elapses after two empty ticks. -/
theorem capture_timeout_no_redirect_witness :
    ((check_electron_ready envTimeout).1 = true) ∧
    ((∀ t ∈ envTimeout.ticks, t.resultContent = none ∧ t.exitOutput = none)) ∧
    ((capture_oauth_redirect envTimeout).outcome =
      ⟨none, none, some ⟨"no_redirect".toList,
        "Did not receive redirect within timeout".toList⟩⟩) ∧
    ((capture_oauth_redirect envTimeout).proc =
      (if envTimeout.terminateCompletes then ProcFinal.terminated else ProcFinal.killed)) :=
  ⟨by decide, by decide,
    (capture_timeout_no_redirect envTimeout rfl rfl rfl rfl rfl (by decide)).1,
    (capture_timeout_no_redirect envTimeout rfl rfl rfl rfl rfl (by decide)).2.1⟩

/-- C2 counterexample: a run in which everything is ready but the Electron
executable is missing inside the app directory, so `Popen` raises
`FileNotFoundError`. The except handler (src/electron_auth.py lines 434–438)
returns `executable_not_found` without reaching the cleanup at lines 375–379,
and the `args` file written at line 234 is still present when the operation
returns — contradicting the claim that neither handshake file survives any
outcome. -/
theorem capture_leaves_args_on_launch_failure :
    ((capture_oauth_redirect envCrash).outcome.err.map ErrInfo.error =
      some "executable_not_found".toList) ∧
    (capture_oauth_redirect envCrash).argsExists = true := by
  exact ⟨rfl, rfl⟩

/-- C2 (amended): the handshake invariant holds for every run that reaches
the polling phase — launch succeeded and the child survived the startup
check: whatever the ticks observe (success, early exit of the child, or
timeout) and whatever error the parsed URL yields, both the `args` and the
`result` file are removed before the operation returns. Runs that fail at or
before launch (`executable_not_found`, `unexpected_error`, `electron_crashed`)
return with the `args` file still on disk. -/
theorem capture_cleanup_after_poll (env : CaptureEnv)
    (hready : (check_electron_ready env).1 = true)
    (hmk : env.mkdirOk = true) (hw : env.argsWriteOk = true)
    (hl : env.launch = .ok) (hie : env.immediateExit = none) :
    (capture_oauth_redirect env).argsExists = false ∧
    (capture_oauth_redirect env).resultExists = false := by
  obtain ⟨n, hf⟩ := ready_find env hready
  have hsys := find_some_system env n hf
  rcases hpl : pollLoop env.ticks none with ⟨cap, ex⟩
  cases hsysc : env.system <;>
    first
      | exact absurd hsysc hsys
      | (cases cap <;>
          simp [capture_oauth_redirect, hready, hmk, hw, hf, hsysc, hl, hie, hpl])

/-- Witness for C2 (amended): a run that captures a redirect on its first tick. -/
theorem capture_cleanup_after_poll_witness :
    ((check_electron_ready envPollOk).1 = true) ∧
    ((capture_oauth_redirect envPollOk).argsExists = false ∧
      (capture_oauth_redirect envPollOk).resultExists = false) :=
  ⟨by decide, capture_cleanup_after_poll envPollOk rfl rfl rfl rfl rfl⟩

/-- C8 counterexample: with the capturer not installed the operation does
fail fast before any launch, but the error kind it returns is the literal
`electron_not_ready` (src/electron_auth.py line 202), not the
`capturer_unavailable` the claim names. -/
theorem capture_not_ready_wrong_kind :
    ((check_electron_ready envNotReady).1 = false) ∧
    ((capture_oauth_redirect envNotReady).outcome.err.map ErrInfo.error =
      some "electron_not_ready".toList) ∧
    ((capture_oauth_redirect envNotReady).outcome.err.map ErrInfo.error ≠
      some "capturer_unavailable".toList) ∧
    (capture_oauth_redirect envNotReady).launched = false := by
  refine ⟨rfl, rfl, ?_, rfl⟩
  decide

/-- C8 (amended): whenever the capturer is not installed/discoverable, the
operation fails fast — before any launch attempt, with the child never
started — with an error of kind `electron_not_ready` carrying the readiness
message; when the helper sources are present but the app is unpackaged, that
message is the remediation text naming the packaging commands. -/
theorem capture_fails_fast_when_not_ready (env : CaptureEnv)
    (h : (check_electron_ready env).1 = false) :
    (capture_oauth_redirect env).outcome =
      ⟨none, none, some ⟨"electron_not_ready".toList, (check_electron_ready env).2⟩⟩ ∧
    (capture_oauth_redirect env).launched = false ∧
    (capture_oauth_redirect env).proc = .notLaunched ∧
    (env.helperDirExists = true → env.packageJsonExists = true →
      (check_electron_ready env).2 =
        "Electron app not packaged. Run:\n  cd electron-helper && npm install && ".toList
          ++ packageCmd env.system) := by
  have hf : find_packaged_app env = none := by
    cases hf : find_packaged_app env with
    | none => rfl
    | some n =>
      rw [check_electron_ready, hf] at h
      simp at h
  refine ⟨?_, ?_, ?_, ?_⟩
  · simp [capture_oauth_redirect, h]
  · simp [capture_oauth_redirect, h]
  · simp [capture_oauth_redirect, h]
  · intro h1 h2
    simp [check_electron_ready, hf, h1, h2]

/-- Witness for C8 (amended) at the concrete unavailable world. -/
theorem capture_fails_fast_when_not_ready_witness :
    ((check_electron_ready envNotReady).1 = false) ∧
    (capture_oauth_redirect envNotReady).launched = false :=
  ⟨by decide, (capture_fails_fast_when_not_ready envNotReady (by decide)).2.1⟩

/-- C1: in both capture strategies, a success-shaped capture result whose
state differs from the generated state makes the orchestrator return
`state_mismatch` and never reach the token exchange. Automatic path: a
capture triple carrying no error and a state value different from the
generated one. Manual path: a pasted redirect URL whose query carries a
code, no error parameter, and a state value different from the generated one. -/
theorem state_mismatch_blocks_exchange (genState : Str) :
    (∀ (c : Option Str) (s : Str), s ≠ genState →
      authenticateDecision genState ⟨c, some s, none⟩ = .failure stateMismatchErr ∧
      ∀ cd, authenticateDecision genState ⟨c, some s, none⟩ ≠ .exchange cd) ∧
    (∀ (url : Str) (cd s : Str), url ≠ [] →
      getParam (parseQS (queryOf url)) "error".toList = none →
      getParam (parseQS (queryOf url)) "code".toList = some cd →
      getParam (parseQS (queryOf url)) "state".toList = some s →
      s ≠ genState →
      authenticateHeadlessDecision genState url = .failure stateMismatchErr ∧
      ∀ cd2, authenticateHeadlessDecision genState url ≠ .exchange cd2) := by
  constructor
  · intro c s hne
    have hdec : authenticateDecision genState ⟨c, some s, none⟩ = .failure stateMismatchErr := by
      simp [authenticateDecision, hne]
    exact ⟨hdec, fun cd => by rw [hdec]; simp⟩
  · intro url cd s hne0 herr hcode hstate hne
    have hemp : url.isEmpty = false := by
      cases url with
      | nil => exact absurd rfl hne0
      | cons a l => rfl
    have herr2 : getParam (parseQS (queryOf url)) ['e', 'r', 'r', 'o', 'r'] = none := herr
    have hcode2 : getParam (parseQS (queryOf url)) ['c', 'o', 'd', 'e'] = some cd := hcode
    have hstate2 : getParam (parseQS (queryOf url)) ['s', 't', 'a', 't', 'e'] = some s := hstate
    have hdec : authenticateHeadlessDecision genState url = .failure stateMismatchErr := by
      simp [authenticateHeadlessDecision, hemp, herr2, hcode2, hstate2, hne]
    exact ⟨hdec, fun cd2 => by rw [hdec]; simp⟩

/-- Witness for C1: generated state S1, returned state S2, both paths. -/
theorem state_mismatch_blocks_exchange_witness :
    ("S2".toList ≠ "S1".toList ∧
      authenticateDecision "S1".toList ⟨some "abc".toList, some "S2".toList, none⟩ =
        .failure stateMismatchErr) ∧
    (("adobe://cb?code=abc&state=S2".toList ≠ ([] : Str)) ∧
      getParam (parseQS (queryOf "adobe://cb?code=abc&state=S2".toList)) "error".toList = none ∧
      getParam (parseQS (queryOf "adobe://cb?code=abc&state=S2".toList)) "code".toList =
        some "abc".toList ∧
      getParam (parseQS (queryOf "adobe://cb?code=abc&state=S2".toList)) "state".toList =
        some "S2".toList ∧
      authenticateHeadlessDecision "S1".toList "adobe://cb?code=abc&state=S2".toList =
        .failure stateMismatchErr) :=
  ⟨⟨by decide,
    ((state_mismatch_blocks_exchange "S1".toList).1 (some "abc".toList) "S2".toList
      (by decide)).1⟩,
   ⟨by decide, by decide, by decide, by decide,
    ((state_mismatch_blocks_exchange "S1".toList).2 "adobe://cb?code=abc&state=S2".toList
      "abc".toList "S2".toList (by decide) (by decide) (by decide) (by decide) (by decide)).1⟩⟩

/-- C9: a captured redirect URL whose query has a `code` parameter but no
`state` (and no `error`) makes the capture operation return the code with a
state of `None`; the orchestrator's state check then fires first — `None`
never equals the generated state — so the reported failure kind is
`state_mismatch`, not `no_code`. -/
theorem code_without_state_yields_state_mismatch (genState : Str) (url : Str) (cd : Str)
    (herr : getParam (parseQS (queryOf url)) "error".toList = none)
    (hcode : getParam (parseQS (queryOf url)) "code".toList = some cd)
    (hstate : getParam (parseQS (queryOf url)) "state".toList = none) :
    parseCapturedUrl url = ⟨some cd, none, none⟩ ∧
    authenticateDecision genState (parseCapturedUrl url) = .failure stateMismatchErr := by
  have herr2 : getParam (parseQS (queryOf url)) ['e', 'r', 'r', 'o', 'r'] = none := herr
  have hcode2 : getParam (parseQS (queryOf url)) ['c', 'o', 'd', 'e'] = some cd := hcode
  have hstate2 : getParam (parseQS (queryOf url)) ['s', 't', 'a', 't', 'e'] = none := hstate
  have h1 : parseCapturedUrl url = ⟨some cd, none, none⟩ := by
    simp [parseCapturedUrl, herr2, hcode2, hstate2]
  refine ⟨h1, ?_⟩
  rw [h1]
  simp [authenticateDecision]

/-- Witness for C9: redirect URL carrying only a code. -/
theorem code_without_state_yields_state_mismatch_witness :
    (getParam (parseQS (queryOf "adobe://cb?code=abc123".toList)) "error".toList = none ∧
      getParam (parseQS (queryOf "adobe://cb?code=abc123".toList)) "code".toList =
        some "abc123".toList ∧
      getParam (parseQS (queryOf "adobe://cb?code=abc123".toList)) "state".toList = none) ∧
    (parseCapturedUrl "adobe://cb?code=abc123".toList =
        ⟨some "abc123".toList, none, none⟩ ∧
      authenticateDecision "S1".toList (parseCapturedUrl "adobe://cb?code=abc123".toList) =
        .failure stateMismatchErr) :=
  ⟨⟨by decide, by decide, by decide⟩,
    code_without_state_yields_state_mismatch "S1".toList "adobe://cb?code=abc123".toList
      "abc123".toList (by decide) (by decide) (by decide)⟩
